import Mathlib

/-!
Shallow embedding of the compliance-review workflow of
`src/llama_stack/core/ui/city-permitting-streamlit.py`.

The remote llama-stack service is external to the repository; it is modelled
as an environment (`Env`) of responses, one per remote operation, following
the abstract capability surface the script consumes (list_models,
vector_dbs.register, rag_tool.insert, Agent creation, create_session,
create_turn).  Each workflow function returns, besides its result and the
updated per-user session state, the ordered trace of remote calls it issued.
-/

namespace CityPermitting

/-- One entry of the remote model catalog (`client.models.list()`). -/
structure ModelInfo where
  identifier : String
  model_type : String
deriving DecidableEq, Repr

/-- A document submitted for ingestion (`Document(...)` at lines 100-105). -/
structure Doc where
  document_id : String
  content : String
  mime_type : String
  metadata_source : String
deriving DecidableEq, Repr

/-- One chat message, as passed to `create_turn`. -/
structure Msg where
  role : String
  content : String
deriving DecidableEq, Repr

/-- A tool-group descriptor (lines 115-118). -/
structure ToolGroup where
  name : String
  vector_db_ids : List String
deriving DecidableEq, Repr

/-- A remote call issued by the workflow, with the arguments the script passes. -/
inductive RemoteCall where
  | listModels
  | registerVectorDB (vector_db_id : String) (embedding_model : String)
  | ragInsert (documents : List Doc) (vector_db_id : String)
      (chunk_size_in_tokens : Nat)
  | createAgent (model : String) (instructions : String) (tools : List ToolGroup)
  | createSession (session_name : String)
  | createTurn (messages : List Msg) (session_id : String) (stream : Bool)
deriving DecidableEq, Repr

/-- The remote service's behaviour for one run: the model catalog, the outcome
of each side-effecting call (an `Except` models a Python exception), and the
locally generated uuid hex strings (uuid4().hex at lines 88 and 129). -/
structure Env where
  models : List ModelInfo
  registerResult : Except String Unit
  insertResult : Except String Unit
  createAgentResult : Except String Nat
  createSessionResult : Except String String
  createTurnResult : Except String String
  uuidHex1 : String
  uuidHex2 : String

/-- The Streamlit per-user session state holding the provisioned handles
(lines 61-70).  The client handle is represented by its base url and the
agent handle by an opaque numeric token. -/
structure SessionState where
  client : Option String
  agent : Option Nat
  session_id : Option String
  vector_db_id : Option String
  initialized : Bool
deriving DecidableEq, Repr

/-- The fresh session state (every key absent / false), lines 61-70. -/
def initialState : SessionState :=
  { client := none, agent := none, session_id := none, vector_db_id := none,
    initialized := false }

/-- `base_url="http://localhost:8321"` (line 76). -/
def base_url : String := "http://localhost:8321"

/-- `model_id` (line 79). -/
def model_id : String := "meta-llama/Llama-4-Scout-17B-16E-Instruct"

/-- `permit_pdf_urls` (lines 82-85). -/
def permit_pdf_urls : List String :=
  ["http://denvergov.org/content/dam/denvergov/Portals/771/documents/PHI/Food/RevisedFoodRulesandregulationsApril2017compressed.pdf",
   "https://denver.prelive.opencities.com/files/assets/public/v/1/public-health-and-environment/documents/phi/2022_mobileunitguide.pdf"]

/-- The agent system instructions (line 124). -/
def agent_instructions : String :=
  "You are a city permitting assistant for food trucks and mobile units. Use embedded city codes and health regulations to pre-screen applications, flag errors, detect compliance gaps, and output a detailed scorecard. Summarize gaps and missing sections."

/-- The `documents` list comprehension (lines 99-106). -/
def mkDocuments (urls : List String) : List Doc :=
  urls.enum.map (fun p =>
    { document_id := "permit-doc-" ++ toString p.1, content := p.2,
      mime_type := "application/pdf", metadata_source := "DenverPermitPDF" })

/-- Result of `initialize_llama_stack`: the Python boolean return value, the
session state after the call, and the trace of remote calls issued. -/
structure InitResult where
  ok : Bool
  state : SessionState
  trace : List RemoteCall
deriving DecidableEq, Repr

/-- Embedding of `initialize_llama_stack` (lines 72-141).  The `try` body runs
the remote steps in source order; the first failing step (a raised exception,
including the `StopIteration` of `next` when no embedding model exists) falls
to the `except` branch, which returns `False` with the session state
untouched.  On success all five state keys are assigned and `True` returned. -/
def initialize_llama_stack (env : Env) (s : SessionState) : InitResult :=
  let vector_db_id := "v" ++ env.uuidHex1
  match env.models.find? (fun m => m.model_type == "embedding") with
  | none => { ok := false, state := s, trace := [.listModels] }
  | some embed_model =>
    let embedding_model_id := embed_model.identifier
    match env.registerResult with
    | .error _ =>
        { ok := false, state := s,
          trace := [.listModels,
                    .registerVectorDB vector_db_id embedding_model_id] }
    | .ok _ =>
      let documents := mkDocuments permit_pdf_urls
      match env.insertResult with
      | .error _ =>
          { ok := false, state := s,
            trace := [.listModels,
                      .registerVectorDB vector_db_id embedding_model_id,
                      .ragInsert documents vector_db_id 512] }
      | .ok _ =>
        let tool_groups : List ToolGroup :=
          [{ name := "builtin::rag/knowledge_search",
             vector_db_ids := [vector_db_id] }]
        match env.createAgentResult with
        | .error _ =>
            { ok := false, state := s,
              trace := [.listModels,
                        .registerVectorDB vector_db_id embedding_model_id,
                        .ragInsert documents vector_db_id 512,
                        .createAgent model_id agent_instructions tool_groups] }
        | .ok agent =>
          let session_name := "s-" ++ env.uuidHex2
          match env.createSessionResult with
          | .error _ =>
              { ok := false, state := s,
                trace := [.listModels,
                          .registerVectorDB vector_db_id embedding_model_id,
                          .ragInsert documents vector_db_id 512,
                          .createAgent model_id agent_instructions tool_groups,
                          .createSession session_name] }
          | .ok session_id =>
              { ok := true,
                state := { client := some base_url, agent := some agent,
                           session_id := some session_id,
                           vector_db_id := some vector_db_id,
                           initialized := true },
                trace := [.listModels,
                          .registerVectorDB vector_db_id embedding_model_id,
                          .ragInsert documents vector_db_id 512,
                          .createAgent model_id agent_instructions tool_groups,
                          .createSession session_name] }

/-- Embedding of the top-level provisioning guard (lines 178-184): the script
calls `initialize_llama_stack` only when `st.session_state.initialized` is
false; otherwise no remote call is made and the state is untouched. -/
def provision (env : Env) (s : SessionState) : SessionState × List RemoteCall :=
  if s.initialized then (s, [])
  else
    let r := initialize_llama_stack env s
    (r.state, r.trace)

/-- Python truthiness of the stored agent handle: an `Agent` object is always
truthy, so only an absent handle is falsy. -/
def pyTruthyAgent : Option Nat → Bool
  | none => false
  | some _ => true

/-- Python truthiness of the stored session id: absent or the empty string is
falsy. -/
def pyTruthyStr : Option String → Bool
  | none => false
  | some v => !(v == "")

/-- The fixed instruction prefix of `user_prompt` (lines 150-155); the form
content is appended after it. -/
def review_prompt_prefix : String :=
  "You are a city permitting AI agent. Using only the embedded city requirements and regulations, review the following food truck permit application submission for completeness and compliance. Generate a scorecard listing missing sections, errors, compliance gaps (with reference citations), and a summary compliance score. Respond in markdown table format for the scorecard, followed by a summary paragraph. \n\nForm Content:\n"

/-- The not-initialized error string returned at line 148. -/
def not_initialized_error : String :=
  "Error: Llama Stack agent not initialized. Please check your configuration."

/-- Result of `generate_scorecard`: the returned string, the session state
after the call, and the trace of remote calls issued. -/
structure ReviewResult where
  output : String
  state : SessionState
  trace : List RemoteCall
deriving DecidableEq, Repr

/-- Embedding of `generate_scorecard` (lines 143-167).  The guard mirrors
Python truthiness of `st.session_state.agent` and `.session_id`; on the main
path one `create_turn` call is issued with `stream=False`, its output content
returned as-is on success, and any exception converted to an
`Error generating scorecard:` string. -/
def generate_scorecard (env : Env) (s : SessionState)
    (form_text : String) : ReviewResult :=
  if !(pyTruthyAgent s.agent) || !(pyTruthyStr s.session_id) then
    { output := not_initialized_error, state := s, trace := [] }
  else
    let user_prompt := review_prompt_prefix ++ form_text
    let sid := s.session_id.getD ""
    let call := RemoteCall.createTurn
      [{ role := "user", content := user_prompt }] sid false
    match env.createTurnResult with
    | .ok content => { output := content, state := s, trace := [call] }
    | .error e =>
        { output := "Error generating scorecard: " ++ e, state := s,
          trace := [call] }

/-- Python `str.strip()` whitespace set, restricted to the ASCII whitespace
characters that can occur in the script's f-string template. -/
def pyWhitespace (c : Char) : Bool :=
  c == ' ' || c == '\t' || c == '\n' || c == '\r' ||
  c == Char.ofNat 11 || c == Char.ofNat 12

/-- Python `str.strip()`: drop leading and trailing whitespace. -/
def pyStrip (s : String) : String :=
  String.mk (((s.data.dropWhile pyWhitespace).reverse.dropWhile
    pyWhitespace).reverse)

/-- The `application_form_text` f-string template (lines 270-275): a leading
newline, the four labelled fields each on its own line, and a trailing
newline. -/
def application_form_text (business_name commissary menu additional_info :
    String) : String :=
  "\nBusiness Name: " ++ business_name ++
  "\nCommissary: " ++ commissary ++
  "\nMenu: " ++ menu ++
  "\nAdditional Information: " ++ additional_info ++ "\n"

/-- The form body actually passed to `generate_scorecard`:
`application_form_text.strip()` (line 279). -/
def rendered_form (business_name commissary menu additional_info : String) :
    String :=
  pyStrip (application_form_text business_name commissary menu additional_info)

/-- An environment in which every remote step succeeds: used to instantiate
universally quantified theorems at a concrete run. -/
def envOk : Env :=
  { models := [{ identifier := "all-MiniLM-L6-v2", model_type := "embedding" }],
    registerResult := .ok (), insertResult := .ok (),
    createAgentResult := .ok 1, createSessionResult := .ok "s-11aa",
    createTurnResult := .ok "| Section | Status |", uuidHex1 := "ab12",
    uuidHex2 := "11aa" }

/-- An environment whose `rag_tool.insert` call raises. -/
def envInsertFails : Env :=
  { envOk with insertResult := .error "ingestion timeout" }

/-- The five-call trace of a successful provisioning run under `env`, in
source order. -/
def fullInitTrace (env : Env) (embedding_model_id : String) :
    List RemoteCall :=
  [.listModels,
   .registerVectorDB ("v" ++ env.uuidHex1) embedding_model_id,
   .ragInsert (mkDocuments permit_pdf_urls) ("v" ++ env.uuidHex1) 512,
   .createAgent model_id agent_instructions
     [{ name := "builtin::rag/knowledge_search",
        vector_db_ids := ["v" ++ env.uuidHex1] }],
   .createSession ("s-" ++ env.uuidHex2)]

/-- An environment whose model catalog holds no embedding model. -/
def envNoEmbedding : Env :=
  { envOk with
    models := [{ identifier := model_id, model_type := "llm" }] }

/-- The session states reachable from the fresh Streamlit session state by any
interleaving of provisioning attempts and scorecard reviews, under arbitrary
remote behaviour. -/
inductive Reachable : SessionState → Prop where
  | init : Reachable initialState
  | provisionStep (env : Env) (s : SessionState) :
      Reachable s → Reachable (provision env s).1
  | reviewStep (env : Env) (s : SessionState) (t : String) :
      Reachable s → Reachable (generate_scorecard env s t).state

/-- Helper: `generate_scorecard` returns the session state it was given, on
every path. -/
lemma review_state_eq (env : Env) (s : SessionState) (t : String) :
    (generate_scorecard env s t).state = s := by
  unfold generate_scorecard
  split
  · rfl
  · dsimp only
    split <;> rfl

/-- Helper: when `initialize_llama_stack` fails, the session state is
untouched. -/
lemma initialize_fail_state (env : Env) (s : SessionState)
    (h : (initialize_llama_stack env s).ok = false) :
    (initialize_llama_stack env s).state = s := by
  cases hfind : env.models.find? (fun m => m.model_type == "embedding") with
  | none => simp [initialize_llama_stack, hfind]
  | some em =>
    cases hr : env.registerResult with
    | error e => simp [initialize_llama_stack, hfind, hr]
    | ok u =>
      cases hi : env.insertResult with
      | error e => simp [initialize_llama_stack, hfind, hr, hi]
      | ok u2 =>
        cases ha : env.createAgentResult with
        | error e => simp [initialize_llama_stack, hfind, hr, hi, ha]
        | ok a =>
          cases hs : env.createSessionResult with
          | error e => simp [initialize_llama_stack, hfind, hr, hi, ha, hs]
          | ok sid =>
            exfalso
            simp [initialize_llama_stack, hfind, hr, hi, ha, hs] at h

/-- Helper: when `initialize_llama_stack` succeeds, every remote step
succeeded and the result is fully determined: all five state keys assigned
and the five calls issued in source order. -/
lemma initialize_ok_spec (env : Env) (s : SessionState)
    (h : (initialize_llama_stack env s).ok = true) :
    ∃ em a sid,
      env.models.find? (fun m => m.model_type == "embedding") = some em ∧
      env.registerResult = .ok () ∧ env.insertResult = .ok () ∧
      env.createAgentResult = .ok a ∧ env.createSessionResult = .ok sid ∧
      initialize_llama_stack env s =
        { ok := true,
          state := { client := some base_url, agent := some a,
                     session_id := some sid,
                     vector_db_id := some ("v" ++ env.uuidHex1),
                     initialized := true },
          trace := fullInitTrace env em.identifier } := by
  cases hfind : env.models.find? (fun m => m.model_type == "embedding") with
  | none => exfalso; simp [initialize_llama_stack, hfind] at h
  | some em =>
    cases hr : env.registerResult with
    | error e => exfalso; simp [initialize_llama_stack, hfind, hr] at h
    | ok u =>
      cases hi : env.insertResult with
      | error e => exfalso; simp [initialize_llama_stack, hfind, hr, hi] at h
      | ok u2 =>
        cases ha : env.createAgentResult with
        | error e =>
          exfalso; simp [initialize_llama_stack, hfind, hr, hi, ha] at h
        | ok a =>
          cases hs : env.createSessionResult with
          | error e =>
            exfalso; simp [initialize_llama_stack, hfind, hr, hi, ha, hs] at h
          | ok sid =>
            exact ⟨em, a, sid, rfl, rfl, rfl, rfl, rfl, by
              simp [initialize_llama_stack, hfind, hr, hi, ha, hs,
                fullInitTrace]⟩

/-- Claim C1: for a submission whose business name, commissary and menu are
non-empty, `generate_scorecard` on a ready session issues exactly one
`create_turn` call with `stream=false` and returns that call's output content
verbatim, without modification. -/
theorem review_single_turn_passthrough (env : Env) (s : SessionState)
    (a : Nat) (sid : String) (bn cm mn ai out : String)
    (hbn : bn ≠ "") (hcm : cm ≠ "") (hmn : mn ≠ "")
    (hA : s.agent = some a) (hS : s.session_id = some sid) (hsid : sid ≠ "")
    (hT : env.createTurnResult = .ok out) :
    generate_scorecard env s (rendered_form bn cm mn ai) =
      { output := out, state := s,
        trace := [.createTurn
          [{ role := "user",
             content := review_prompt_prefix ++ rendered_form bn cm mn ai }]
          sid false] } := by
  simp [generate_scorecard, hA, hS, hT, pyTruthyAgent, pyTruthyStr, hsid]

/-- Witness for C1 at a concrete ready session and successful environment. -/
theorem review_single_turn_passthrough_witness :
    generate_scorecard envOk
      { client := some base_url, agent := some 1, session_id := some "s-11aa",
        vector_db_id := some "vab12", initialized := true }
      (rendered_form "Taco Co" "123 Main St Kitchen" "Tacos, Burritos" "") =
      { output := "| Section | Status |",
        state := { client := some base_url, agent := some 1,
                   session_id := some "s-11aa",
                   vector_db_id := some "vab12", initialized := true },
        trace := [.createTurn
          [{ role := "user",
             content := review_prompt_prefix ++
               rendered_form "Taco Co" "123 Main St Kitchen" "Tacos, Burritos"
                 "" }]
          "s-11aa" false] } :=
  review_single_turn_passthrough envOk _ 1 "s-11aa" "Taco Co"
    "123 Main St Kitchen" "Tacos, Burritos" "" "| Section | Status |"
    (by decide) (by decide) (by decide) rfl rfl (by decide) rfl

/-- Claim C2: `generate_scorecard` on a non-ready session (agent handle or
session id absent) returns the not-initialized error string and issues zero
remote calls. -/
theorem review_not_ready_no_calls (env : Env) (s : SessionState) (t : String)
    (h : s.agent = none ∨ s.session_id = none) :
    generate_scorecard env s t =
      { output := not_initialized_error, state := s, trace := [] } := by
  rcases h with h | h <;>
    simp [generate_scorecard, h, pyTruthyAgent, pyTruthyStr]

/-- Witness for C2 at the fresh session state. -/
theorem review_not_ready_no_calls_witness :
    generate_scorecard envOk initialState "Business Name: Taco Co" =
      { output := not_initialized_error, state := initialState,
        trace := [] } :=
  review_not_ready_no_calls envOk initialState "Business Name: Taco Co"
    (Or.inl rfl)

/-- Claim C4: for the submission with business name `Taco Co`, commissary
`123 Main St Kitchen`, menu `Tacos, Burritos` and empty additional info, the
rendered (stripped) prompt body is exactly the four labelled lines in order,
with the final line `Additional Information:` stripped of its trailing
space. -/
theorem rendered_form_taco_co :
    rendered_form "Taco Co" "123 Main St Kitchen" "Tacos, Burritos" "" =
      "Business Name: Taco Co\nCommissary: 123 Main St Kitchen\nMenu: Tacos, Burritos\nAdditional Information:" := by
  decide

/-- Claim C8: every error raised by the `create_turn` call is caught and
converted to an `Error generating scorecard:` string carrying the underlying
cause; the result is an ordinary returned string, never a propagated
exception. -/
theorem review_error_converted (env : Env) (s : SessionState)
    (a : Nat) (sid t e : String)
    (hA : s.agent = some a) (hS : s.session_id = some sid) (hsid : sid ≠ "")
    (hT : env.createTurnResult = .error e) :
    generate_scorecard env s t =
      { output := "Error generating scorecard: " ++ e, state := s,
        trace := [.createTurn
          [{ role := "user", content := review_prompt_prefix ++ t }]
          sid false] } := by
  simp [generate_scorecard, hA, hS, hT, pyTruthyAgent, pyTruthyStr, hsid]

/-- Witness for C8 at a concrete ready session and failing turn call. -/
theorem review_error_converted_witness :
    generate_scorecard { envOk with createTurnResult := .error "boom" }
      { client := some base_url, agent := some 1, session_id := some "s-11aa",
        vector_db_id := some "vab12", initialized := true } "Menu: Tacos" =
      { output := "Error generating scorecard: " ++ "boom",
        state := { client := some base_url, agent := some 1,
                   session_id := some "s-11aa",
                   vector_db_id := some "vab12", initialized := true },
        trace := [.createTurn
          [{ role := "user", content := review_prompt_prefix ++ "Menu: Tacos" }]
          "s-11aa" false] } :=
  review_error_converted { envOk with createTurnResult := .error "boom" } _ 1
    "s-11aa" "Menu: Tacos" "boom" rfl rfl (by decide) rfl

/-- Claim C9: `generate_scorecard` never mutates the session state: on every
success and failure path the state after the call equals the state before. -/
theorem review_preserves_session (env : Env) (s : SessionState) (t : String) :
    (generate_scorecard env s t).state = s :=
  review_state_eq env s t

/-- Claim C3: when the remote model catalog holds no entry of model type
`embedding`, `initialize_llama_stack` fails (returns false, the state
untouched) and its trace holds only the `list_models` call: no index
registration, ingestion, agent creation or session creation is issued. -/
theorem provision_no_embedding_model (env : Env) (s : SessionState)
    (h : ∀ m ∈ env.models, m.model_type ≠ "embedding") :
    initialize_llama_stack env s =
      { ok := false, state := s, trace := [.listModels] } := by
  have hf : env.models.find? (fun m => m.model_type == "embedding") = none := by
    rw [List.find?_eq_none]
    intro m hm
    simpa using h m hm
  simp [initialize_llama_stack, hf]

/-- Witness for C3 at a catalog holding a single non-embedding model. -/
theorem provision_no_embedding_model_witness :
    initialize_llama_stack envNoEmbedding initialState =
      { ok := false, state := initialState, trace := [.listModels] } :=
  provision_no_embedding_model envNoEmbedding initialState (by decide)

/-- Claim C5: provisioning is idempotent: starting uninitialized, a first
`provision` under an all-successful environment issues the five
side-effecting calls exactly once, and a second `provision` returns the
cached session state unchanged and issues zero remote calls. -/
theorem provision_idempotent (env env2 : Env) (s : SessionState)
    (hinit : s.initialized = false) (em : ModelInfo)
    (hm : env.models.find? (fun m => m.model_type == "embedding") = some em)
    (hr : env.registerResult = .ok ()) (hi : env.insertResult = .ok ())
    (a : Nat) (ha : env.createAgentResult = .ok a)
    (sid : String) (hs : env.createSessionResult = .ok sid) :
    (provision env s).2 = fullInitTrace env em.identifier ∧
    provision env2 (provision env s).1 = ((provision env s).1, []) := by
  have hstep : provision env s =
      ({ client := some base_url, agent := some a, session_id := some sid,
         vector_db_id := some ("v" ++ env.uuidHex1), initialized := true },
       fullInitTrace env em.identifier) := by
    simp [provision, hinit, initialize_llama_stack, hm, hr, hi, ha, hs,
      fullInitTrace]
  rw [hstep]
  exact ⟨rfl, by simp [provision]⟩

/-- Witness for C5 at the fresh state and an all-successful environment. -/
theorem provision_idempotent_witness :
    (provision envOk initialState).2 =
      fullInitTrace envOk "all-MiniLM-L6-v2" ∧
    provision envOk (provision envOk initialState).1 =
      ((provision envOk initialState).1, []) :=
  provision_idempotent envOk envOk initialState rfl
    { identifier := "all-MiniLM-L6-v2", model_type := "embedding" }
    rfl rfl rfl 1 rfl "s-11aa" rfl

/-- Claim C6: a failure during document ingestion makes
`initialize_llama_stack` fail with the state untouched — the ready flag stays
false and no session field is cached — so a subsequent `provision` under a
working environment re-executes all five steps from scratch. -/
theorem provision_ingestion_failure_no_cache (env env2 : Env) (e : String)
    (em : ModelInfo)
    (hm : env.models.find? (fun m => m.model_type == "embedding") = some em)
    (hr : env.registerResult = .ok ())
    (hi : env.insertResult = .error e)
    (em2 : ModelInfo)
    (hm2 : env2.models.find? (fun m => m.model_type == "embedding") = some em2)
    (hr2 : env2.registerResult = .ok ()) (hi2 : env2.insertResult = .ok ())
    (a : Nat) (ha2 : env2.createAgentResult = .ok a)
    (sid : String) (hs2 : env2.createSessionResult = .ok sid) :
    initialize_llama_stack env initialState =
      { ok := false, state := initialState,
        trace := [.listModels,
                  .registerVectorDB ("v" ++ env.uuidHex1) em.identifier,
                  .ragInsert (mkDocuments permit_pdf_urls)
                    ("v" ++ env.uuidHex1) 512] } ∧
    (provision env2 initialState).2 = fullInitTrace env2 em2.identifier ∧
    (provision env2 initialState).1.initialized = true := by
  refine ⟨by simp [initialize_llama_stack, hm, hr, hi], ?_, ?_⟩ <;>
    simp [provision, initialState, initialize_llama_stack, hm2, hr2, hi2,
      ha2, hs2, fullInitTrace]

/-- Witness for C6 with ingestion failing first, then a working
environment. -/
theorem provision_ingestion_failure_no_cache_witness :
    initialize_llama_stack envInsertFails initialState =
      { ok := false, state := initialState,
        trace := [.listModels,
                  .registerVectorDB ("v" ++ envInsertFails.uuidHex1)
                    "all-MiniLM-L6-v2",
                  .ragInsert (mkDocuments permit_pdf_urls)
                    ("v" ++ envInsertFails.uuidHex1) 512] } ∧
    (provision envOk initialState).2 = fullInitTrace envOk "all-MiniLM-L6-v2" ∧
    (provision envOk initialState).1.initialized = true :=
  provision_ingestion_failure_no_cache envInsertFails envOk "ingestion timeout"
    { identifier := "all-MiniLM-L6-v2", model_type := "embedding" } rfl rfl rfl
    { identifier := "all-MiniLM-L6-v2", model_type := "embedding" } rfl rfl rfl
    1 rfl "s-11aa" rfl

/-- Claim C7: whenever a provisioning run starting from an uninitialized
state ends with the ready flag true, every remote step succeeded and the
calls were issued in source order: model listing, then index registration,
then document ingestion into that same index, then agent creation, then
session creation. -/
theorem provision_ready_requires_all_steps (env : Env) (s : SessionState)
    (hinit : s.initialized = false)
    (hready : (provision env s).1.initialized = true) :
    ∃ em a sid,
      env.models.find? (fun m => m.model_type == "embedding") = some em ∧
      env.registerResult = .ok () ∧ env.insertResult = .ok () ∧
      env.createAgentResult = .ok a ∧ env.createSessionResult = .ok sid ∧
      (provision env s).2 = fullInitTrace env em.identifier := by
  have hp : provision env s =
      ((initialize_llama_stack env s).state,
       (initialize_llama_stack env s).trace) := by
    simp [provision, hinit]
  rw [hp] at hready ⊢
  cases hok : (initialize_llama_stack env s).ok with
  | false =>
    rw [initialize_fail_state env s hok] at hready
    rw [hinit] at hready
    exact absurd hready (by simp)
  | true =>
    obtain ⟨em, a, sid, h1, h2, h3, h4, h5, heq⟩ := initialize_ok_spec env s hok
    exact ⟨em, a, sid, h1, h2, h3, h4, h5, by rw [heq]⟩

/-- Witness for C7 at the fresh state and an all-successful environment. -/
theorem provision_ready_requires_all_steps_witness :
    ∃ em a sid,
      envOk.models.find? (fun m => m.model_type == "embedding") = some em ∧
      envOk.registerResult = .ok () ∧ envOk.insertResult = .ok () ∧
      envOk.createAgentResult = .ok a ∧ envOk.createSessionResult = .ok sid ∧
      (provision envOk initialState).2 = fullInitTrace envOk em.identifier :=
  provision_ready_requires_all_steps envOk initialState rfl rfl

/-- Claim C10: in every reachable session state, the initialized flag implies
that the client, agent, session id and vector db id fields are all present,
so a session marked ready passes the presence check `generate_scorecard`
performs on the agent and session id. -/
theorem initialized_implies_fields_present (s : SessionState)
    (h : Reachable s) (hi : s.initialized = true) :
    s.client.isSome ∧ s.agent.isSome ∧ s.session_id.isSome ∧
      s.vector_db_id.isSome := by
  induction h with
  | init => simp [initialState] at hi
  | provisionStep env s hs ih =>
    by_cases hst : s.initialized
    · have hp : provision env s = (s, []) := by simp [provision, hst]
      rw [hp] at hi ⊢
      exact ih hi
    · have hst' : s.initialized = false := by simpa using hst
      have hp : (provision env s).1 = (initialize_llama_stack env s).state := by
        simp [provision, hst']
      rw [hp] at hi ⊢
      cases hok : (initialize_llama_stack env s).ok with
      | false =>
        rw [initialize_fail_state env s hok] at hi ⊢
        exact ih hi
      | true =>
        obtain ⟨em, a, sid, _, _, _, _, _, heq⟩ := initialize_ok_spec env s hok
        rw [heq]
        simp
  | reviewStep env s t hs ih =>
    rw [review_state_eq] at hi ⊢
    exact ih hi

/-- Witness for C10 at the state produced by one successful provisioning
run. -/
theorem initialized_implies_fields_present_witness :
    (provision envOk initialState).1.client.isSome ∧
    (provision envOk initialState).1.agent.isSome ∧
    (provision envOk initialState).1.session_id.isSome ∧
    (provision envOk initialState).1.vector_db_id.isSome :=
  initialized_implies_fields_present (provision envOk initialState).1
    (Reachable.provisionStep envOk initialState Reachable.init) (by decide)

end CityPermitting
